import Mathlib

/-!
Shallow embedding of the notebook ClientSession state machine from
src/sql/parts/notebook/models/clientSession.ts.

External collaborators (server manager, session manager, sessions, kernels)
are modelled as an environment of outcome data: every awaited backend call is
a field of the environment recording what that await observes.  The session
methods become functions from environment and session state to an outcome
that carries the returned (or thrown) value, the updated state, and a trace
of the observable effects (warnings, execute requests, config actions, and
fired events), in the order the single-threaded cooperative scheduler of the
source would produce them.
-/

/-- Error value as observed by the session code: the message carried by the
thrown error, and the optional HTTP status found at err.response.status
(none when the error has no response object). -/
structure JsError where
  message : String
  responseStatus : Option Nat
deriving Repr, DecidableEq

/-- Kernel preference (IKernelPreference): the fields the client session
reads, namely the requested kernel name and the shouldStart flag. -/
structure KernelPreference where
  name : String
  shouldStart : Bool
deriving Repr, DecidableEq

/-- NotebookConnection as read by the client session: host, knoxport, user,
password, and the connection profile id (connectionProfile.id). -/
structure NotebookConnection where
  host : String
  knoxport : String
  user : String
  password : String
  profileId : String
deriving Repr, DecidableEq

/-- Kernel specification (nb.IKernelSpec): the client session only reads the
requested name. -/
structure KernelSpec where
  name : String
deriving Repr, DecidableEq

/-- External kernel capability (nb.IKernel): its name, its isReady flag, the
outcome observed when awaiting kernel.ready, and the outcome observed when
awaiting the done future of a requestExecute call, keyed by the submitted
code and the silent flag. -/
structure Kernel where
  name : String
  isReady : Bool
  readyOutcome : Except JsError Unit
  executeDone : String → Bool → Except JsError Unit

/-- External session object (nb.ISession): id, kernel, status, the
defaultKernelLoaded flag the client session writes, and the outcome of
session.changeKernel keyed by the requested kernel name.  On a successful
changeKernel the backend session holds the returned kernel afterwards. -/
structure Session where
  id : String
  kernel : Option Kernel
  status : String
  defaultKernelLoaded : Bool
  changeKernelOutcome : String → Except JsError Kernel

/-- Server manager capability: isStarted as read before startServer is
awaited, the outcome of awaiting startServer, isStarted as read after it,
and the outcome of awaiting stopServer. -/
structure ServerManager where
  isStartedBefore : Bool
  startServerOutcome : Except JsError Unit
  isStartedAfter : Bool
  stopServerOutcome : Except JsError Unit

/-- Session manager capability: the isReady flag, the outcome of awaiting
the ready promise, and the outcome of startNew keyed by the kernelName it
is called with (none models kernelName undefined). -/
structure SessionManager where
  isReady : Bool
  readyOutcome : Except JsError Unit
  startNew : Option String → Except JsError Session

/-- The environment a client session runs against: the notebook manager
capabilities.  livyServerUrl is Modelled from the spec: sparkUtils.getLivyUrl
and URI.parse are not under src/, and the spec names the produced value only
as livy-url(host, knoxport), so the URL builder is kept abstract as a field
of the environment. -/
structure Env where
  serverManager : Option ServerManager
  sessionManager : SessionManager
  livyServerUrl : String → String → String

/-- A registered kernel-config action: either the default action registered
by initialize (runTasksBeforeSessionStart), or an abstract caller-registered
callback that records its start and its completion in the trace and finishes
with the given outcome. -/
inductive ConfigAction where
  | defaultAction : ConfigAction
  | custom (tag : Nat) (outcome : Except JsError Unit) : ConfigAction

/-- Observable effects of a client session run, in execution order. -/
inductive Effect where
  | warn (msg : String)
  | startNewCall (kernelName : Option String)
  | sessionChangeKernel (kernelName : String)
  | executeRequest (code : String) (silent : Bool)
  | actionStart (tag : Nat) (kernelName : String)
  | actionEnd (tag : Nat) (kernelName : String)
  | shutdownSession (id : String)
  | stopServer
  | fireStatusChanged
  | fireKernelChanged
deriving Repr, DecidableEq

/-- Mutable state of a ClientSession.  The two Deferred gates are Modelled
from the spec (the Deferred class of sql/base/common/promise is not under
src/; spec section 4.2 describes a single-resolution gate): readyResolved
counts the resolve calls on the ready gate, kernelChangeGen counts how many
fresh kernelChangeCompleted gates have been allocated, and
kernelChangeResolved counts the resolve calls on the current one.  A gate
with a positive resolve count is resolved. -/
structure ClientSessionState where
  path : String
  isReady : Bool
  readyResolved : Nat
  kernelChangeGen : Nat
  kernelChangeResolved : Nat
  kernelPreference : Option KernelPreference
  errorMessage : Option String
  session : Option Session
  connection : Option NotebookConnection
  isServerStarted : Bool
  kernelConfigActions : List ConfigAction

/-- Result of running one session operation: the returned or thrown value,
the state afterwards, and the trace of effects. -/
structure Outcome (α : Type) where
  result : Except JsError α
  state : ClientSessionState
  trace : List Effect

/-- The client-session computation monad: environment plus state plus
exceptions plus an effect trace. -/
abbrev CSM (α : Type) := Env → ClientSessionState → Outcome α

def CSM.pure {α : Type} (a : α) : CSM α := fun _ s => ⟨Except.ok a, s, []⟩

def CSM.bind {α β : Type} (m : CSM α) (f : α → CSM β) : CSM β := fun env s =>
  match m env s with
  | ⟨Except.ok a, s1, t1⟩ =>
      let o2 := f a env s1
      ⟨o2.result, o2.state, t1 ++ o2.trace⟩
  | ⟨Except.error e, s1, t1⟩ => ⟨Except.error e, s1, t1⟩

instance : Monad CSM where
  pure := CSM.pure
  bind := CSM.bind

/-- Read the current session state. -/
def CSM.getS : CSM ClientSessionState := fun _ s => ⟨Except.ok s, s, []⟩

/-- Update the session state. -/
def CSM.modifyS (f : ClientSessionState → ClientSessionState) : CSM Unit :=
  fun _ s => ⟨Except.ok (), f s, []⟩

/-- Read the environment (the notebook manager capabilities). -/
def CSM.readEnv : CSM Env := fun env s => ⟨Except.ok env, s, []⟩

/-- Record one observable effect. -/
def CSM.emit (e : Effect) : CSM Unit := fun _ s => ⟨Except.ok (), s, [e]⟩

/-- Throw: the operation rejects with the given error. -/
def CSM.throwE {α : Type} (e : JsError) : CSM α := fun _ s => ⟨Except.error e, s, []⟩

/-- Await an external outcome: returns its value or rethrows its error. -/
def CSM.await {α : Type} (x : Except JsError α) : CSM α := fun _ s => ⟨x, s, []⟩

/-- A try/catch block: run m, and on a thrown error run the handler from the
state at the point of the throw. -/
def CSM.tryCatch {α : Type} (m : CSM α) (h : JsError → CSM α) : CSM α := fun env s =>
  match m env s with
  | ⟨Except.ok a, s1, t1⟩ => ⟨Except.ok a, s1, t1⟩
  | ⟨Except.error e, s1, t1⟩ =>
      let o2 := h e env s1
      ⟨o2.result, o2.state, t1 ++ o2.trace⟩

/-- The kernel getter: this._session ? this._session.kernel : undefined. -/
def ClientSessionState.kernel (s : ClientSessionState) : Option Kernel :=
  match s.session with
  | some sess => sess.kernel
  | none => none

/-- The isInErrorState getter: double negation of the errorMessage string,
so an absent or empty message is not an error state. -/
def ClientSessionState.isInErrorState (s : ClientSessionState) : Bool :=
  match s.errorMessage with
  | some m => m != ""
  | none => false

/-- Modelled from the spec: notebookUtils.getErrorMessage is not under src/;
the spec says the exception is stored as errorMessage, so the message of the
thrown error is extracted. -/
def getErrorMessage (err : JsError) : String := err.message

/-- The localized ServerNotStarted message thrown by startServer. -/
def serverNotStartedMessage : String := "Server did not start for unknown reason"

/-- Char-list test: the list starts with the given pattern. -/
def listStartsWith : List Char → List Char → Bool
  | _, [] => true
  | [], _ :: _ => false
  | c :: cs, d :: ds => (c == d) && listStartsWith cs ds

/-- Char-list test: the pattern occurs contiguously somewhere in the list,
the indexOf(...) > -1 test of the source. -/
def listHasSub : List Char → List Char → Bool
  | [], sub => sub.isEmpty
  | c :: cs, sub => listStartsWith (c :: cs) sub || listHasSub cs sub

/-- isSparkKernel: kernelName && kernelName.toLowerCase().indexOf(spark) > -1,
with string truthiness (the empty string is falsy); lowercasing is done
characterwise. -/
def isSparkKernel (kernelName : String) : Bool :=
  kernelName != "" && listHasSub (kernelName.toList.map Char.toLower) ("spark".toList)

/-- The SparkMagic control command built by runTasksBeforeSessionStart from
the held connection and the livy server url. -/
def doNotCallChangeEndpointParams (env : Env) (conn : NotebookConnection) : String :=
  "%_do_not_call_change_endpoint --username=" ++ conn.user ++
    " --password=" ++ conn.password ++
    " --server=" ++ env.livyServerUrl conn.host conn.knoxport ++
    " --auth=Basic_Access"

/-- ClientSession.runTasksBeforeSessionStart: when a backend session and a
connection are held and the kernel name contains the spark marker, submit
one silent execute request with the control command and await its done
future.  Reading requestExecute off an absent session kernel throws a
TypeError, as the source would. -/
def runTasksBeforeSessionStart (kernelName : String) : CSM Unit := do
  let s ← CSM.getS
  match s.session, s.connection with
  | some sess, some conn =>
    if isSparkKernel kernelName then do
      let env ← CSM.readEnv
      let code := doNotCallChangeEndpointParams env conn
      match sess.kernel with
      | some k => do
          CSM.emit (Effect.executeRequest code true)
          CSM.await (k.executeDone code true)
      | none =>
          CSM.throwE { message := "TypeError: this._session.kernel is undefined", responseStatus := none }
    else CSM.pure ()
  | _, _ => CSM.pure ()

/-- Run one registered kernel-config action. -/
def runConfigAction (a : ConfigAction) (kernelName : String) : CSM Unit :=
  match a with
  | ConfigAction.defaultAction => runTasksBeforeSessionStart kernelName
  | ConfigAction.custom tag outcome => do
      CSM.emit (Effect.actionStart tag kernelName)
      CSM.await outcome
      CSM.emit (Effect.actionEnd tag kernelName)

/-- The for-of loop body of runKernelConfigActions: each action is awaited
before the next one starts. -/
def runConfigActionsList (acts : List ConfigAction) (kernelName : String) : CSM Unit :=
  match acts with
  | [] => CSM.pure ()
  | a :: rest => do
      runConfigAction a kernelName
      runConfigActionsList rest kernelName

/-- ClientSession.runKernelConfigActions. -/
def runKernelConfigActions (kernelName : String) : CSM Unit := do
  let s ← CSM.getS
  runConfigActionsList s.kernelConfigActions kernelName

/-- The try block of startSessionInstance: sessionManager.startNew with the
requested kernel name, marking defaultKernelLoaded true on success. -/
def startNewNamed (kernelName : String) : CSM Session := do
  let env ← CSM.readEnv
  CSM.emit (Effect.startNewCall (some kernelName))
  let sess ← CSM.await (env.sessionManager.startNew (some kernelName))
  CSM.pure { sess with defaultKernelLoaded := true }

/-- The catch block of startSessionInstance: on an error whose response
status is 501, warn and start a fallback session with kernelName undefined,
marking defaultKernelLoaded false; rethrow any other error. -/
def startNewFallback (kernelName : String) (err : JsError) : CSM Session :=
  if err.responseStatus == some 501 then do
    let env ← CSM.readEnv
    CSM.emit (Effect.warn ("Kernel " ++ kernelName ++ " was not found. The default kernel will be used instead."))
    CSM.emit (Effect.startNewCall none)
    let sess ← CSM.await (env.sessionManager.startNew none)
    CSM.pure { sess with defaultKernelLoaded := false }
  else CSM.throwE err

/-- ClientSession.startSessionInstance: try startNew, falling back on a 501
error, then store the session, run the kernel-config actions, and fire the
status-changed event. -/
def startSessionInstance (kernelName : String) : CSM Unit := do
  let session ← CSM.tryCatch (startNewNamed kernelName) (startNewFallback kernelName)
  CSM.modifyS (fun s => { s with session := some session })
  runKernelConfigActions kernelName
  CSM.emit Effect.fireStatusChanged

/-- The tail of initializeSession: when the kernel preference asks for an
immediate start, start a session for the preferred kernel name. -/
def sessionStartIfPreferred : CSM Unit := do
  let s ← CSM.getS
  match s.kernelPreference with
  | some kp => if kp.shouldStart then startSessionInstance kp.name else CSM.pure ()
  | none => CSM.pure ()

/-- ClientSession.initializeSession.  The await of the already-settled
serverLoadFinished promise at its head is a no-op on the success path that
reaches this method and is therefore not repeated here. -/
def initializeSession : CSM Unit := do
  let s ← CSM.getS
  if s.isServerStarted then do
    let env ← CSM.readEnv
    if !env.sessionManager.isReady then
      CSM.await env.sessionManager.readyOutcome
    else CSM.pure ()
    sessionStartIfPreferred
  else CSM.pure ()

/-- ClientSession.startServer: when a server manager exists and is not yet
started, await startServer, throw the ServerNotStarted error if it is still
not started, and record isServerStarted; otherwise record it started. -/
def startServer : CSM Unit := do
  let env ← CSM.readEnv
  match env.serverManager with
  | some sm =>
    if !sm.isStartedBefore then do
      CSM.await sm.startServerOutcome
      if !sm.isStartedAfter then
        CSM.throwE { message := serverNotStartedMessage, responseStatus := none }
      else
        CSM.modifyS (fun s => { s with isServerStarted := sm.isStartedAfter })
    else CSM.modifyS (fun s => { s with isServerStarted := true })
  | none => CSM.modifyS (fun s => { s with isServerStarted := true })

/-- The try block of ClientSession.initialize: register the default
kernel-config action, store the connection, start the server and await it,
then initialize the session. -/
def initializeBody (connection : Option NotebookConnection) : CSM Unit := do
  CSM.modifyS (fun s => { s with kernelConfigActions := s.kernelConfigActions ++ [ConfigAction.defaultAction] })
  CSM.modifyS (fun s => { s with connection := connection })
  startServer
  initializeSession

/-- The initialize method of ClientSession (named initializeCS here because
its source name is a Lean keyword): any error of the body is caught and
stored as errorMessage; afterwards isReady is set and both gates are
resolved. -/
def initializeCS (connection : Option NotebookConnection) : CSM Unit := do
  CSM.tryCatch (initializeBody connection)
    (fun err => CSM.modifyS (fun s => { s with errorMessage := some (getErrorMessage err) }))
  CSM.modifyS (fun s =>
    { s with isReady := true,
             readyResolved := s.readyResolved + 1,
             kernelChangeResolved := s.kernelChangeResolved + 1 })

/-- ClientSession.doChangeKernel: with a backend session, ask it to change
kernel and run the kernel-config actions for the new kernel name; without
one, start a new session and read the kernel off the session state.  The
value can be none in the second case when the started session has no
kernel. -/
def doChangeKernel (name : String) : CSM (Option Kernel) := do
  let s ← CSM.getS
  match s.session with
  | some sess => do
      CSM.emit (Effect.sessionChangeKernel name)
      let kernel ← CSM.await (sess.changeKernelOutcome name)
      CSM.modifyS (fun st => { st with session := some { sess with kernel := some kernel } })
      runKernelConfigActions kernel.name
      CSM.pure (some kernel)
  | none => do
      startSessionInstance name
      let s2 ← CSM.getS
      CSM.pure s2.kernel

/-- The state change at the head of changeKernel: allocate a fresh
kernelChangeCompleted gate (a new generation, unresolved) and flip isReady
false. -/
def gateAllocState (s : ClientSessionState) : ClientSessionState :=
  { s with kernelChangeGen := s.kernelChangeGen + 1
           kernelChangeResolved := 0
           isReady := false }

/-- The await of the ready promise of the new kernel inside changeKernel, with
its catch block: on a rejection, set isReady from the kernel, resolve the
fresh gate, and rethrow the error. -/
def awaitKernelReady (kernel : Kernel) : CSM Unit :=
  CSM.tryCatch (CSM.await kernel.readyOutcome)
    (fun error => do
      CSM.modifyS (fun s =>
        { s with isReady := kernel.isReady,
                 kernelChangeResolved := s.kernelChangeResolved + 1 })
      CSM.throwE error)

/-- The tail of changeKernel once the switch produced a kernel: await its
readiness (resolving the gate and rethrowing on a rejection), then check the
session for the newKernel read, set isReady from the kernel, resolve the
gate, and fire the kernel-changed event. -/
def finishChangeKernel (kernel : Kernel) : CSM Kernel := do
  awaitKernelReady kernel
  let s ← CSM.getS
  match s.session with
  | some _ => do
      CSM.modifyS (fun st =>
        { st with isReady := kernel.isReady,
                  kernelChangeResolved := st.kernelChangeResolved + 1 })
      CSM.emit Effect.fireKernelChanged
      CSM.pure kernel
  | none =>
      CSM.throwE { message := "TypeError: this._session is undefined", responseStatus := none }

/-- ClientSession.changeKernel: allocate a fresh kernelChangeCompleted gate,
flip isReady false, delegate to doChangeKernel, then finish by awaiting the
readiness of the new kernel.  When doChangeKernel yields no kernel, awaiting
kernel.ready throws a TypeError that the catch block then also hits when
reading kernel.isReady, so the TypeError escapes with the gate unresolved
and isReady left false. -/
def changeKernel (options : KernelSpec) : CSM Kernel := do
  CSM.modifyS gateAllocState
  let kernelOpt ← doChangeKernel options.name
  match kernelOpt with
  | none =>
      CSM.throwE { message := "TypeError: kernel is undefined", responseStatus := none }
  | some kernel => finishChangeKernel kernel

/-- ClientSession.updateConnection: return early when no kernel is active;
otherwise replace the held connection unless the incoming profile id is the
sentinel -1, and re-run the kernel-config actions when the kernel has a
name. -/
def updateConnection (connection : NotebookConnection) : CSM Unit := do
  let s ← CSM.getS
  match s.kernel with
  | none => CSM.pure ()
  | some _ => do
      CSM.modifyS (fun st =>
        { st with connection :=
            if connection.profileId != "-1" then some connection else st.connection })
      let s2 ← CSM.getS
      match s2.kernel with
      | some k => if k.name != "" then runKernelConfigActions k.name else CSM.pure ()
      | none => CSM.pure ()

/-- ClientSession.shutdown: request session shutdown (not awaited) when a
session with a truthy id exists, then await serverManager.stopServer when a
server manager exists. -/
def shutdown : CSM Unit := do
  let s ← CSM.getS
  match s.session with
  | some sess => if sess.id != "" then CSM.emit (Effect.shutdownSession sess.id) else CSM.pure ()
  | none => CSM.pure ()
  let env ← CSM.readEnv
  match env.serverManager with
  | some sm => do
      CSM.emit Effect.stopServer
      CSM.await sm.stopServerOutcome
  | none => CSM.pure ()

/-- The ClientSession constructor: path stored, isReady false, fresh
unresolved ready and kernelChangeCompleted gates, no session, connection,
error, or registered actions.  The kernel preference is the value the owner
assigns through the setter before calling initialize. -/
def newClientSession (path : String) (kernelPreference : Option KernelPreference) : ClientSessionState :=
  { path := path
    isReady := false
    readyResolved := 0
    kernelChangeGen := 0
    kernelChangeResolved := 0
    kernelPreference := kernelPreference
    errorMessage := none
    session := none
    connection := none
    isServerStarted := false
    kernelConfigActions := [] }

/-- Several updateConnection calls in sequence, for the repeated-call
properties. -/
def updateConnectionSeq (conns : List NotebookConnection) : CSM Unit :=
  match conns with
  | [] => CSM.pure ()
  | c :: rest => do
      updateConnection c
      updateConnectionSeq rest

/-- Substring test used to state that a message contains a phrase. -/
def containsStr (s sub : String) : Bool := listHasSub s.toList sub.toList

/-- The list of abstract recording actions with the given tags, each
succeeding. -/
def customsOk (tags : List Nat) : List ConfigAction :=
  tags.map (fun t => ConfigAction.custom t (Except.ok ()))

/-- The strictly sequential trace expected from running the recording
actions with the given tags in order: each action completes (its end event)
before the next one starts. -/
def seqTrace (tags : List Nat) (kernelName : String) : List Effect :=
  tags.flatMap (fun t => [Effect.actionStart t kernelName, Effect.actionEnd t kernelName])

/-- The ready-gate invariant claimed by the spec: isReady holds exactly when
the ready gate has resolved. -/
def ReadyInv (s : ClientSessionState) : Prop := s.isReady = true ↔ s.readyResolved ≥ 1

/-- Concrete fixture: an error with no response object. -/
def errBoom : JsError := { message := "boom", responseStatus := none }

/-- Concrete fixture: an error whose response status is 501, the status the
backend uses to signal that the requested kernel was not found. -/
def err501 : JsError := { message := "kernel missing", responseStatus := some 501 }

/-- Concrete fixture: a kernel whose ready promise rejects and that reports
itself not ready. -/
def kernelFailing : Kernel :=
  { name := "k"
    isReady := false
    readyOutcome := Except.error errBoom
    executeDone := fun _ _ => Except.ok () }

/-- Concrete fixture: a healthy kernel whose name carries the spark marker. -/
def kernelSpark : Kernel :=
  { name := "Spark3kernel"
    isReady := true
    readyOutcome := Except.ok ()
    executeDone := fun _ _ => Except.ok () }

/-- Concrete fixture: a session holding the failing kernel. -/
def sessFailing : Session :=
  { id := "sess1"
    kernel := some kernelFailing
    status := "idle"
    defaultKernelLoaded := false
    changeKernelOutcome := fun _ => Except.ok kernelFailing }

/-- Concrete fixture: a session holding the spark kernel. -/
def sessSpark : Session :=
  { id := "sess2"
    kernel := some kernelSpark
    status := "idle"
    defaultKernelLoaded := false
    changeKernelOutcome := fun _ => Except.ok kernelSpark }

/-- Concrete fixture: a url builder standing in for the livy url. -/
def urlFixture : String → String → String := fun h p => "https://" ++ h ++ ":" ++ p

/-- Concrete fixture: no server manager, a ready session manager whose
startNew always yields the session with the failing kernel. -/
def envFailingKernel : Env :=
  { serverManager := none
    sessionManager :=
      { isReady := true
        readyOutcome := Except.ok ()
        startNew := fun _ => Except.ok sessFailing }
    livyServerUrl := urlFixture }

/-- Concrete fixture: no server manager, a ready session manager whose
startNew always yields the spark session. -/
def envSpark : Env :=
  { serverManager := none
    sessionManager :=
      { isReady := true
        readyOutcome := Except.ok ()
        startNew := fun _ => Except.ok sessSpark }
    livyServerUrl := urlFixture }

/-- Concrete fixture: a server manager that is not started and stays not
started after startServer resolves. -/
def envServerDead : Env :=
  { serverManager := some
      { isStartedBefore := false
        startServerOutcome := Except.ok ()
        isStartedAfter := false
        stopServerOutcome := Except.ok () }
    sessionManager :=
      { isReady := true
        readyOutcome := Except.ok ()
        startNew := fun _ => Except.ok sessSpark }
    livyServerUrl := urlFixture }

/-- Concrete fixture: startNew with a named kernel fails with the 501 error,
startNew with kernelName undefined yields the spark session. -/
def env501 : Env :=
  { serverManager := none
    sessionManager :=
      { isReady := true
        readyOutcome := Except.ok ()
        startNew := fun k =>
          match k with
          | some _ => Except.error err501
          | none => Except.ok sessSpark }
    livyServerUrl := urlFixture }

/-- Concrete fixture: a connection with an ordinary profile id. -/
def connA : NotebookConnection :=
  { host := "h", knoxport := "8443", user := "u", password := "p", profileId := "prof1" }

/-- Concrete fixture: a connection carrying the sentinel profile id. -/
def connSentinel : NotebookConnection :=
  { host := "h2", knoxport := "8443", user := "u2", password := "p2", profileId := "-1" }

/-- Concrete fixture: a state holding the spark session and a connection,
with only the default config action registered. -/
def stSpark : ClientSessionState :=
  { newClientSession "nb" none with
      session := some sessSpark
      connection := some connA
      kernelConfigActions := [ConfigAction.defaultAction] }

/-- Concrete fixture: a state holding the session whose kernel change yields
the failing kernel. -/
def stFailing : ClientSessionState :=
  { newClientSession "nb" none with session := some sessFailing }

/-- Concrete fixture: a state holding the spark session and two recording
config actions. -/
def stCustomActs : ClientSessionState :=
  { newClientSession "nb" none with
      session := some sessSpark
      kernelConfigActions := customsOk [0, 1] }

@[simp] theorem CSM.monad_bind {α β : Type} (m : CSM α) (f : α → CSM β) :
    m >>= f = CSM.bind m f := rfl

@[simp] theorem CSM.getS_bind {α : Type} (f : ClientSessionState → CSM α) (env : Env)
    (s : ClientSessionState) : CSM.bind CSM.getS f env s = f s env s := rfl

@[simp] theorem CSM.readEnv_bind {α : Type} (f : Env → CSM α) (env : Env)
    (s : ClientSessionState) : CSM.bind CSM.readEnv f env s = f env env s := rfl

@[simp] theorem CSM.pure_bind {α β : Type} (a : α) (f : α → CSM β) (env : Env)
    (s : ClientSessionState) : CSM.bind (CSM.pure a) f env s = f a env s := rfl

@[simp] theorem CSM.modifyS_bind {α : Type} (g : ClientSessionState → ClientSessionState)
    (f : Unit → CSM α) (env : Env) (s : ClientSessionState) :
    CSM.bind (CSM.modifyS g) f env s = f () env (g s) := rfl

@[simp] theorem CSM.emit_bind {α : Type} (e : Effect) (f : Unit → CSM α) (env : Env)
    (s : ClientSessionState) :
    CSM.bind (CSM.emit e) f env s =
      ⟨(f () env s).result, (f () env s).state, e :: (f () env s).trace⟩ := rfl

@[simp] theorem CSM.throwE_bind {α β : Type} (e : JsError) (f : α → CSM β) (env : Env)
    (s : ClientSessionState) :
    CSM.bind (CSM.throwE e) f env s = ⟨Except.error e, s, []⟩ := rfl

@[simp] theorem CSM.await_ok_bind {α β : Type} (a : α) (f : α → CSM β) (env : Env)
    (s : ClientSessionState) :
    CSM.bind (CSM.await (Except.ok a)) f env s = f a env s := rfl

@[simp] theorem CSM.await_error_bind {α β : Type} (e : JsError) (f : α → CSM β) (env : Env)
    (s : ClientSessionState) :
    CSM.bind (CSM.await (Except.error e)) f env s = ⟨Except.error e, s, []⟩ := rfl

@[simp] theorem CSM.pure_apply {α : Type} (a : α) (env : Env) (s : ClientSessionState) :
    CSM.pure a env s = ⟨Except.ok a, s, []⟩ := rfl

@[simp] theorem CSM.await_apply {α : Type} (x : Except JsError α) (env : Env)
    (s : ClientSessionState) : CSM.await x env s = ⟨x, s, []⟩ := rfl

@[simp] theorem CSM.throwE_apply {α : Type} (e : JsError) (env : Env) (s : ClientSessionState) :
    CSM.throwE (α := α) e env s = ⟨Except.error e, s, []⟩ := rfl

@[simp] theorem CSM.emit_apply (e : Effect) (env : Env) (s : ClientSessionState) :
    CSM.emit e env s = ⟨Except.ok (), s, [e]⟩ := rfl

@[simp] theorem CSM.modifyS_apply (g : ClientSessionState → ClientSessionState) (env : Env)
    (s : ClientSessionState) : CSM.modifyS g env s = ⟨Except.ok (), g s, []⟩ := rfl

@[simp] theorem CSM.getS_apply (env : Env) (s : ClientSessionState) :
    CSM.getS env s = ⟨Except.ok s, s, []⟩ := rfl

theorem CSM.bind_of_ok {α β : Type} {m : CSM α} {env : Env} {s : ClientSessionState}
    {a : α} {s1 : ClientSessionState} {t1 : List Effect}
    (f : α → CSM β) (h : m env s = ⟨Except.ok a, s1, t1⟩) :
    CSM.bind m f env s =
      ⟨(f a env s1).result, (f a env s1).state, t1 ++ (f a env s1).trace⟩ := by
  unfold CSM.bind
  rw [h]

theorem CSM.bind_of_err {α β : Type} {m : CSM α} {env : Env} {s : ClientSessionState}
    {e : JsError} {s1 : ClientSessionState} {t1 : List Effect}
    (f : α → CSM β) (h : m env s = ⟨Except.error e, s1, t1⟩) :
    CSM.bind m f env s = ⟨Except.error e, s1, t1⟩ := by
  unfold CSM.bind
  rw [h]

theorem CSM.tryCatch_of_ok {α : Type} {m : CSM α} {env : Env} {s : ClientSessionState}
    {a : α} {s1 : ClientSessionState} {t1 : List Effect}
    (h : JsError → CSM α) (hm : m env s = ⟨Except.ok a, s1, t1⟩) :
    CSM.tryCatch m h env s = ⟨Except.ok a, s1, t1⟩ := by
  unfold CSM.tryCatch
  rw [hm]

theorem CSM.tryCatch_of_error {α : Type} {m : CSM α} {env : Env} {s : ClientSessionState}
    {e : JsError} {s1 : ClientSessionState} {t1 : List Effect}
    (h : JsError → CSM α) (hm : m env s = ⟨Except.error e, s1, t1⟩) :
    CSM.tryCatch m h env s =
      ⟨(h e env s1).result, (h e env s1).state, t1 ++ (h e env s1).trace⟩ := by
  unfold CSM.tryCatch
  rw [hm]

/-- runTasksBeforeSessionStart never changes the session state. -/
theorem runTasksBeforeSessionStart_state (kn : String) (env : Env) (s : ClientSessionState) :
    (runTasksBeforeSessionStart kn env s).state = s := by
  unfold runTasksBeforeSessionStart
  simp only [CSM.monad_bind, CSM.getS_bind]
  cases hs : s.session with
  | none => simp [hs]
  | some sess =>
    cases hc : s.connection with
    | none => simp [hs, hc]
    | some conn =>
      simp only [hs, hc]
      by_cases hk : isSparkKernel kn
      · simp only [hk, if_true, CSM.monad_bind, CSM.readEnv_bind]
        cases hkk : sess.kernel with
        | none => simp [hkk]
        | some k => simp [hkk]
      · simp [hk]

/-- A computation that never changes the session state. -/
def StatePres {α : Type} (m : CSM α) : Prop := ∀ env s, (m env s).state = s

/-- A computation whose only state change is the session field. -/
def SessionOnly {α : Type} (m : CSM α) : Prop :=
  ∀ env s, ∃ so, (m env s).state = { s with session := so }

theorem statePres_pure {α : Type} (a : α) : StatePres (CSM.pure a) := fun _ _ => rfl

theorem statePres_getS : StatePres CSM.getS := fun _ _ => rfl

theorem statePres_readEnv : StatePres CSM.readEnv := fun _ _ => rfl

theorem statePres_emit (e : Effect) : StatePres (CSM.emit e) := fun _ _ => rfl

theorem statePres_await {α : Type} (x : Except JsError α) : StatePres (CSM.await x) :=
  fun _ _ => rfl

theorem statePres_throwE {α : Type} (e : JsError) : StatePres (CSM.throwE (α := α) e) :=
  fun _ _ => rfl

theorem statePres_bind {α β : Type} {m : CSM α} {f : α → CSM β} (hm : StatePres m)
    (hf : ∀ a, StatePres (f a)) : StatePres (CSM.bind m f) := by
  intro env s
  rcases h : m env s with ⟨r, s1, t1⟩
  have hs1 : s1 = s := by
    have h2 := hm env s
    rw [h] at h2
    exact h2
  cases r with
  | ok a =>
      rw [CSM.bind_of_ok f h]
      exact (hf a env s1).trans hs1
  | error e =>
      rw [CSM.bind_of_err f h]
      exact hs1

theorem statePres_tryCatch {α : Type} {m : CSM α} {h : JsError → CSM α} (hm : StatePres m)
    (hh : ∀ e, StatePres (h e)) : StatePres (CSM.tryCatch m h) := by
  intro env s
  rcases hr : m env s with ⟨r, s1, t1⟩
  have hs1 : s1 = s := by
    have h2 := hm env s
    rw [hr] at h2
    exact h2
  cases r with
  | ok a =>
      rw [CSM.tryCatch_of_ok _ hr]
      exact hs1
  | error e =>
      rw [CSM.tryCatch_of_error _ hr]
      exact (hh e env s1).trans hs1

theorem statePres_sessionOnly {α : Type} {m : CSM α} (hm : StatePres m) : SessionOnly m :=
  fun env s => ⟨s.session, by rw [hm env s]⟩

theorem sessionOnly_bind {α β : Type} {m : CSM α} {f : α → CSM β} (hm : SessionOnly m)
    (hf : ∀ a, SessionOnly (f a)) : SessionOnly (CSM.bind m f) := by
  intro env s
  rcases h : m env s with ⟨r, s1, t1⟩
  obtain ⟨so, hs1⟩ : ∃ so, s1 = { s with session := so } := by
    obtain ⟨so, h2⟩ := hm env s
    rw [h] at h2
    exact ⟨so, h2⟩
  cases r with
  | ok a =>
      rw [CSM.bind_of_ok f h]
      obtain ⟨so2, h3⟩ := hf a env s1
      exact ⟨so2, by rw [h3, hs1]⟩
  | error e =>
      rw [CSM.bind_of_err f h]
      exact ⟨so, hs1⟩

theorem sessionOnly_tryCatch {α : Type} {m : CSM α} {h : JsError → CSM α} (hm : SessionOnly m)
    (hh : ∀ e, SessionOnly (h e)) : SessionOnly (CSM.tryCatch m h) := by
  intro env s
  rcases hr : m env s with ⟨r, s1, t1⟩
  obtain ⟨so, hs1⟩ : ∃ so, s1 = { s with session := so } := by
    obtain ⟨so, h2⟩ := hm env s
    rw [hr] at h2
    exact ⟨so, h2⟩
  cases r with
  | ok a =>
      rw [CSM.tryCatch_of_ok _ hr]
      exact ⟨so, hs1⟩
  | error e =>
      rw [CSM.tryCatch_of_error _ hr]
      obtain ⟨so2, h3⟩ := hh e env s1
      exact ⟨so2, by rw [h3, hs1]⟩

theorem statePres_runConfigAction (a : ConfigAction) (kn : String) :
    StatePres (runConfigAction a kn) := by
  cases a with
  | defaultAction => exact fun env s => runTasksBeforeSessionStart_state kn env s
  | custom tag outcome =>
      exact statePres_bind (statePres_emit _)
        (fun _ => statePres_bind (statePres_await _) (fun _ => statePres_emit _))

theorem statePres_runConfigActionsList (acts : List ConfigAction) (kn : String) :
    StatePres (runConfigActionsList acts kn) := by
  induction acts with
  | nil => exact statePres_pure _
  | cons a rest ih => exact statePres_bind (statePres_runConfigAction a kn) (fun _ => ih)

theorem statePres_runKernelConfigActions (kn : String) :
    StatePres (runKernelConfigActions kn) :=
  statePres_bind statePres_getS (fun s => statePres_runConfigActionsList s.kernelConfigActions kn)

/-- The gate-related view of a state: the fields that only the constructor,
initialize, and changeKernel touch. -/
structure GateView where
  isReady : Bool
  readyResolved : Nat
  kernelChangeGen : Nat
  kernelChangeResolved : Nat
  errorMessage : Option String
deriving Repr, DecidableEq

/-- Project the gate-related fields of a state. -/
def gates (s : ClientSessionState) : GateView :=
  ⟨s.isReady, s.readyResolved, s.kernelChangeGen, s.kernelChangeResolved, s.errorMessage⟩

/-- A computation that leaves all gate-related fields unchanged. -/
def GatePres {α : Type} (m : CSM α) : Prop := ∀ env s, gates (m env s).state = gates s

theorem statePres_gatePres {α : Type} {m : CSM α} (hm : StatePres m) : GatePres m :=
  fun env s => by rw [hm env s]

theorem sessionOnly_gatePres {α : Type} {m : CSM α} (hm : SessionOnly m) : GatePres m := by
  intro env s
  obtain ⟨so, h⟩ := hm env s
  rw [h]
  rfl

theorem gatePres_bind {α β : Type} {m : CSM α} {f : α → CSM β} (hm : GatePres m)
    (hf : ∀ a, GatePres (f a)) : GatePres (CSM.bind m f) := by
  intro env s
  rcases h : m env s with ⟨r, s1, t1⟩
  have hs1 : gates s1 = gates s := by
    have h2 := hm env s
    rw [h] at h2
    exact h2
  cases r with
  | ok a =>
      rw [CSM.bind_of_ok f h]
      exact (hf a env s1).trans hs1
  | error e =>
      rw [CSM.bind_of_err f h]
      exact hs1

theorem gatePres_tryCatch {α : Type} {m : CSM α} {h : JsError → CSM α} (hm : GatePres m)
    (hh : ∀ e, GatePres (h e)) : GatePres (CSM.tryCatch m h) := by
  intro env s
  rcases hr : m env s with ⟨r, s1, t1⟩
  have hs1 : gates s1 = gates s := by
    have h2 := hm env s
    rw [hr] at h2
    exact h2
  cases r with
  | ok a =>
      rw [CSM.tryCatch_of_ok _ hr]
      exact hs1
  | error e =>
      rw [CSM.tryCatch_of_error _ hr]
      exact (hh e env s1).trans hs1

theorem statePres_startNewNamed (kn : String) : StatePres (startNewNamed kn) := by
  unfold startNewNamed
  simp only [CSM.monad_bind]
  refine statePres_bind statePres_readEnv (fun env => ?_)
  exact statePres_bind (statePres_emit _)
    (fun _ => statePres_bind (statePres_await _) (fun _ => statePres_pure _))

theorem statePres_startNewFallback (kn : String) (err : JsError) :
    StatePres (startNewFallback kn err) := by
  unfold startNewFallback
  by_cases h5 : (err.responseStatus == some 501) = true
  · simp only [h5, if_true, CSM.monad_bind]
    refine statePres_bind statePres_readEnv (fun env => ?_)
    exact statePres_bind (statePres_emit _)
      (fun _ => statePres_bind (statePres_emit _)
        (fun _ => statePres_bind (statePres_await _) (fun _ => statePres_pure _)))
  · rw [if_neg h5]
    exact statePres_throwE err

theorem sessionOnly_startSessionInstance (kn : String) :
    SessionOnly (startSessionInstance kn) := by
  unfold startSessionInstance
  simp only [CSM.monad_bind]
  refine sessionOnly_bind (statePres_sessionOnly
    (statePres_tryCatch (statePres_startNewNamed kn) (statePres_startNewFallback kn)))
    (fun sess => ?_)
  refine sessionOnly_bind (fun env2 s2 => ⟨some sess, rfl⟩) (fun _ => ?_)
  exact statePres_sessionOnly
    (statePres_bind (statePres_runKernelConfigActions kn) (fun _ => statePres_emit _))

theorem sessionOnly_initializeSession : SessionOnly initializeSession := by
  unfold initializeSession
  simp only [CSM.monad_bind]
  refine sessionOnly_bind (statePres_sessionOnly statePres_getS) (fun s => ?_)
  have hkp : SessionOnly sessionStartIfPreferred := by
    unfold sessionStartIfPreferred
    simp only [CSM.monad_bind]
    refine sessionOnly_bind (statePres_sessionOnly statePres_getS) (fun s => ?_)
    cases s.kernelPreference with
    | none => exact statePres_sessionOnly (statePres_pure _)
    | some kp =>
        by_cases hst : kp.shouldStart = true
        · simp only [hst, if_true]
          exact sessionOnly_startSessionInstance kp.name
        · simp only [hst, if_false]
          exact statePres_sessionOnly (statePres_pure _)
  by_cases hb : s.isServerStarted = true
  · simp only [hb, if_true]
    refine sessionOnly_bind (statePres_sessionOnly statePres_readEnv) (fun env => ?_)
    by_cases hr : (!env.sessionManager.isReady) = true
    · simp only [hr, if_true]
      exact sessionOnly_bind (statePres_sessionOnly (statePres_await _)) (fun _ => hkp)
    · rw [if_neg hr]
      exact sessionOnly_bind (statePres_sessionOnly (statePres_pure _)) (fun _ => hkp)
  · rw [if_neg hb]
    exact statePres_sessionOnly (statePres_pure _)

theorem gatePres_startServer : GatePres startServer := by
  unfold startServer
  simp only [CSM.monad_bind]
  refine gatePres_bind (statePres_gatePres statePres_readEnv) (fun env => ?_)
  cases hsm : env.serverManager with
  | none => exact fun env2 s2 => rfl
  | some sm =>
      by_cases hb : (!sm.isStartedBefore) = true
      · simp only [hb, if_true]
        refine gatePres_bind (statePres_gatePres (statePres_await _)) (fun _ => ?_)
        by_cases ha : (!sm.isStartedAfter) = true
        · simp only [ha, if_true]
          exact statePres_gatePres (statePres_throwE _)
        · simp only [ha, if_false]
          exact fun env2 s2 => rfl
      · simp only [hb, if_false]
        exact fun env2 s2 => rfl

theorem gatePres_initializeBody (conn : Option NotebookConnection) :
    GatePres (initializeBody conn) := by
  unfold initializeBody
  simp only [CSM.monad_bind]
  refine gatePres_bind (fun env s => rfl) (fun _ => ?_)
  refine gatePres_bind (fun env s => rfl) (fun _ => ?_)
  exact gatePres_bind gatePres_startServer
    (fun _ => sessionOnly_gatePres sessionOnly_initializeSession)

theorem gatePres_doChangeKernel (name : String) : GatePres (doChangeKernel name) := by
  unfold doChangeKernel
  simp only [CSM.monad_bind]
  refine gatePres_bind (statePres_gatePres statePres_getS) (fun s => ?_)
  cases hs : s.session with
  | some sess =>
      refine gatePres_bind (statePres_gatePres (statePres_emit _)) (fun _ => ?_)
      refine gatePres_bind (statePres_gatePres (statePres_await _)) (fun kernel => ?_)
      refine gatePres_bind (fun env2 s2 => rfl) (fun _ => ?_)
      exact gatePres_bind (statePres_gatePres (statePres_runKernelConfigActions _))
        (fun _ => statePres_gatePres (statePres_pure _))
  | none =>
      refine gatePres_bind (sessionOnly_gatePres (sessionOnly_startSessionInstance name)) (fun _ => ?_)
      exact gatePres_bind (statePres_gatePres statePres_getS)
        (fun s2 => statePres_gatePres (statePres_pure _))

/-- The net outcome of initialize from any state: it returns normally, sets
isReady, resolves both gates exactly one more time without allocating a new
kernel-change gate, and stores the message of the error of the startup body
when there was one. -/
theorem initializeCS_outcome (conn : Option NotebookConnection) (env : Env)
    (s : ClientSessionState) :
    (initializeCS conn env s).result = Except.ok () ∧
    (initializeCS conn env s).state.isReady = true ∧
    (initializeCS conn env s).state.readyResolved = s.readyResolved + 1 ∧
    (initializeCS conn env s).state.kernelChangeGen = s.kernelChangeGen ∧
    (initializeCS conn env s).state.kernelChangeResolved = s.kernelChangeResolved + 1 ∧
    (initializeCS conn env s).state.errorMessage =
      (match (initializeBody conn env s).result with
       | Except.ok _ => s.errorMessage
       | Except.error e => some (getErrorMessage e)) := by
  rcases hb : initializeBody conn env s with ⟨r, s1, t1⟩
  have hg : gates s1 = gates s := by
    have h2 := gatePres_initializeBody conn env s
    rw [hb] at h2
    exact h2
  have hrr : s1.readyResolved = s.readyResolved := congrArg GateView.readyResolved hg
  have hgen : s1.kernelChangeGen = s.kernelChangeGen := congrArg GateView.kernelChangeGen hg
  have hkcr : s1.kernelChangeResolved = s.kernelChangeResolved :=
    congrArg GateView.kernelChangeResolved hg
  have herr : s1.errorMessage = s.errorMessage := congrArg GateView.errorMessage hg
  cases r with
  | ok a =>
      unfold initializeCS
      simp only [CSM.monad_bind]
      rw [CSM.bind_of_ok _ (CSM.tryCatch_of_ok _ hb)]
      simp [CSM.modifyS_apply, hb, hrr, hgen, hkcr, herr]
  | error e =>
      unfold initializeCS
      simp only [CSM.monad_bind]
      have h2 : CSM.tryCatch (initializeBody conn)
          (fun err => CSM.modifyS (fun s => { s with errorMessage := some (getErrorMessage err) }))
          env s =
          ⟨Except.ok (), { s1 with errorMessage := some (getErrorMessage e) }, t1 ++ []⟩ := by
        rw [CSM.tryCatch_of_error _ hb]
        simp [CSM.modifyS_apply]
      rw [CSM.bind_of_ok _ h2]
      simp [CSM.modifyS_apply, hb, hrr, hgen, hkcr]

/-- With no active kernel, updateConnection is a complete no-op: it returns
normally, changes nothing, and records no effect. -/
theorem updateConnection_no_kernel (c : NotebookConnection) (env : Env)
    (s : ClientSessionState) (h : s.kernel = none) :
    updateConnection c env s = ⟨Except.ok (), s, []⟩ := by
  unfold updateConnection
  simp only [CSM.monad_bind, CSM.getS_bind]
  rw [h]
  rfl

/-- With an active kernel, updateConnection replaces the held connection
unless the incoming profile id is the sentinel, and otherwise leaves the
state unchanged. -/
theorem updateConnection_with_kernel (c : NotebookConnection) (env : Env)
    (s : ClientSessionState) (k : Kernel) (h : s.kernel = some k) :
    (updateConnection c env s).state =
      { s with connection := if c.profileId != "-1" then some c else s.connection } := by
  unfold updateConnection
  simp only [CSM.monad_bind, CSM.getS_bind]
  rw [h]
  simp only [CSM.modifyS_bind, CSM.getS_bind]
  have h2 : ({ s with connection :=
      if c.profileId != "-1" then some c else s.connection } : ClientSessionState).kernel
      = some k := by
    unfold ClientSessionState.kernel at h ⊢
    exact h
  rw [h2]
  cases hn : (k.name != "") with
  | true =>
      simp only [hn, if_true]
      exact statePres_runKernelConfigActions k.name env _
  | false => simp [hn]

/-- A sequence of updateConnection calls with no active kernel is a complete
no-op. -/
theorem updateConnectionSeq_no_kernel (conns : List NotebookConnection) (env : Env)
    (s : ClientSessionState) (h : s.kernel = none) :
    updateConnectionSeq conns env s = ⟨Except.ok (), s, []⟩ := by
  induction conns with
  | nil => rfl
  | cons c rest ih =>
      unfold updateConnectionSeq
      simp only [CSM.monad_bind]
      rw [CSM.bind_of_ok _ (updateConnection_no_kernel c env s h)]
      rw [ih]
      rfl

theorem statePres_shutdown : StatePres shutdown := by
  intro env s
  unfold shutdown
  simp only [CSM.monad_bind, CSM.getS_bind]
  cases hs : s.session with
  | none =>
      simp only [CSM.pure_bind, CSM.readEnv_bind]
      cases hsm : env.serverManager with
      | none => rfl
      | some sm => simp
  | some sess =>
      cases hid : (sess.id != "") with
      | true =>
          simp only [hid, if_true, CSM.emit_bind, CSM.readEnv_bind]
          cases hsm : env.serverManager with
          | none => rfl
          | some sm => simp
      | false =>
          simp only [hid, Bool.false_eq_true, if_false, CSM.pure_bind, CSM.readEnv_bind]
          cases hsm : env.serverManager with
          | none => rfl
          | some sm => simp

theorem gatePres_updateConnection (c : NotebookConnection) : GatePres (updateConnection c) := by
  intro env s
  cases h : s.kernel with
  | none => rw [updateConnection_no_kernel c env s h]
  | some k =>
      rw [updateConnection_with_kernel c env s k h]
      rfl

/-- C1: a single call to initialize from a fresh client session resolves the
ready gate and the kernelChangeCompleted gate exactly once each, never
rejects, leaves isReady true, and stores the message of any exception thrown
by the startup body (server start, session manager readiness, or session
start) into errorMessage instead of propagating it. -/
theorem initialize_always_resolves_and_captures
    (env : Env) (path : String) (kp : Option KernelPreference)
    (conn : Option NotebookConnection) :
    (initializeCS conn env (newClientSession path kp)).result = Except.ok () ∧
    (initializeCS conn env (newClientSession path kp)).state.isReady = true ∧
    (initializeCS conn env (newClientSession path kp)).state.readyResolved = 1 ∧
    (initializeCS conn env (newClientSession path kp)).state.kernelChangeGen = 0 ∧
    (initializeCS conn env (newClientSession path kp)).state.kernelChangeResolved = 1 ∧
    (initializeCS conn env (newClientSession path kp)).state.errorMessage =
      (match (initializeBody conn env (newClientSession path kp)).result with
       | Except.ok _ => none
       | Except.error e => some (getErrorMessage e)) := by
  obtain ⟨h1, h2, h3, h4, h5, h6⟩ := initializeCS_outcome conn env (newClientSession path kp)
  refine ⟨h1, h2, ?_, ?_, ?_, ?_⟩
  · simpa [newClientSession] using h3
  · simpa [newClientSession] using h4
  · simpa [newClientSession] using h5
  · simpa [newClientSession] using h6

/-- startServer when the server manager reports not started before and after
its startServer resolves: the ServerNotStarted error is thrown. -/
theorem startServer_notStarted (env : Env) (s : ClientSessionState) (sm : ServerManager)
    (hsm : env.serverManager = some sm) (hb : sm.isStartedBefore = false)
    (hst : sm.startServerOutcome = Except.ok ()) (ha : sm.isStartedAfter = false) :
    startServer env s =
      ⟨Except.error { message := serverNotStartedMessage, responseStatus := none }, s, []⟩ := by
  unfold startServer
  simp only [CSM.monad_bind, CSM.readEnv_bind]
  rw [hsm]
  simp only [hb, Bool.not_false, if_true, hst, CSM.await_ok_bind, ha, Bool.not_false]
  rfl

/-- The startup body under the dead-server scenario: it stops with the
ServerNotStarted error after registering the default action and storing the
connection. -/
theorem initializeBody_serverNotStarted (conn : Option NotebookConnection) (env : Env)
    (s : ClientSessionState) (sm : ServerManager)
    (hsm : env.serverManager = some sm) (hb : sm.isStartedBefore = false)
    (hst : sm.startServerOutcome = Except.ok ()) (ha : sm.isStartedAfter = false) :
    (initializeBody conn env s).result =
      Except.error { message := serverNotStartedMessage, responseStatus := none } := by
  unfold initializeBody
  simp only [CSM.monad_bind, CSM.modifyS_bind]
  rw [CSM.bind_of_err _ (startServer_notStarted env _ sm hsm hb hst ha)]

/-- C6: with a server manager that reports isStarted false before and after
startServer resolves, initialize completes normally with isReady true,
isInErrorState true, and an errorMessage containing a did-not-start
message. -/
theorem initialize_server_dead_reports_error (env : Env) (path : String)
    (kp : Option KernelPreference) (conn : Option NotebookConnection) (sm : ServerManager)
    (hsm : env.serverManager = some sm) (hb : sm.isStartedBefore = false)
    (hst : sm.startServerOutcome = Except.ok ()) (ha : sm.isStartedAfter = false) :
    (initializeCS conn env (newClientSession path kp)).result = Except.ok () ∧
    (initializeCS conn env (newClientSession path kp)).state.isReady = true ∧
    (initializeCS conn env (newClientSession path kp)).state.errorMessage =
      some serverNotStartedMessage ∧
    (initializeCS conn env (newClientSession path kp)).state.isInErrorState = true ∧
    containsStr serverNotStartedMessage "did not start" = true := by
  obtain ⟨h1, h2, h3, h4, h5, h6⟩ := initializeCS_outcome conn env (newClientSession path kp)
  rw [initializeBody_serverNotStarted conn env _ sm hsm hb hst ha] at h6
  have h7 : (initializeCS conn env (newClientSession path kp)).state.errorMessage =
      some serverNotStartedMessage := h6
  refine ⟨h1, h2, h7, ?_, by decide⟩
  unfold ClientSessionState.isInErrorState
  rw [h7]
  decide

/-- Witness for C6 on the concrete dead-server environment. -/
theorem initialize_server_dead_reports_error_witness :
    (initializeCS none envServerDead (newClientSession "nb" none)).state.errorMessage =
      some serverNotStartedMessage :=
  (initialize_server_dead_reports_error envServerDead "nb" none none
    { isStartedBefore := false
      startServerOutcome := Except.ok ()
      isStartedAfter := false
      stopServerOutcome := Except.ok () }
    rfl rfl rfl rfl).2.2.1

/-- C5 counterexample: after initialize and then a changeKernel whose new
kernel rejects readiness, the ready gate has resolved (readyResolved is one)
while isReady is false, so the claimed biconditional between isReady and the
resolved ready gate fails in a reachable state, right after an operation. -/
theorem readyInv_counterexample :
    ((changeKernel { name := "k2" } envFailingKernel
        (initializeCS none envFailingKernel (newClientSession "nb" none)).state).state.readyResolved
      = 1) ∧
    ((changeKernel { name := "k2" } envFailingKernel
        (initializeCS none envFailingKernel (newClientSession "nb" none)).state).state.isReady
      = false) ∧
    ¬ ReadyInv (changeKernel { name := "k2" } envFailingKernel
        (initializeCS none envFailingKernel (newClientSession "nb" none)).state).state := by
  have h1 : ((changeKernel { name := "k2" } envFailingKernel
      (initializeCS none envFailingKernel (newClientSession "nb" none)).state).state.readyResolved
      = 1) := by decide
  have h2 : ((changeKernel { name := "k2" } envFailingKernel
      (initializeCS none envFailingKernel (newClientSession "nb" none)).state).state.isReady
      = false) := by decide
  refine ⟨h1, h2, fun hinv => ?_⟩
  have h3 := hinv.mpr (le_of_eq h1.symm)
  rw [h2] at h3
  exact Bool.false_ne_true h3

/-- C5 amended: the invariant isReady iff the ready gate has resolved holds
after construction and after initialize, and is preserved by
updateConnection and by shutdown; changeKernel is excluded, because it sets
isReady from the new kernel without touching the already-resolved ready
gate. -/
theorem readyInv_holds_except_changeKernel (path : String) (kp : Option KernelPreference) :
    ReadyInv (newClientSession path kp) ∧
    (∀ env conn, ReadyInv (initializeCS conn env (newClientSession path kp)).state) ∧
    (∀ env s c, ReadyInv s → ReadyInv (updateConnection c env s).state) ∧
    (∀ env s, ReadyInv s → ReadyInv (shutdown env s).state) := by
  refine ⟨?_, ?_, ?_, ?_⟩
  · simp [ReadyInv, newClientSession]
  · intro env conn
    obtain ⟨h1, h2, h3, h4, h5, h6⟩ := initializeCS_outcome conn env (newClientSession path kp)
    unfold ReadyInv
    rw [h2, h3]
    simp [newClientSession]
  · intro env s c hinv
    unfold ReadyInv at hinv ⊢
    have hg := gatePres_updateConnection c env s
    have h1 : (updateConnection c env s).state.isReady = s.isReady :=
      congrArg GateView.isReady hg
    have h2 : (updateConnection c env s).state.readyResolved = s.readyResolved :=
      congrArg GateView.readyResolved hg
    rw [h1, h2]
    exact hinv
  · intro env s hinv
    unfold ReadyInv at hinv ⊢
    rw [statePres_shutdown env s]
    exact hinv

/-- Witness for the amended C5: the preserved invariant at a concrete
updateConnection call. -/
theorem readyInv_holds_except_changeKernel_witness :
    ReadyInv (updateConnection connA envSpark (newClientSession "nb" none)).state :=
  (readyInv_holds_except_changeKernel "nb" none).2.2.1 envSpark (newClientSession "nb" none)
    connA ((readyInv_holds_except_changeKernel "nb" none).1)

/-- C7: initialize followed by any number of updateConnection calls while no
kernel is active: every call returns normally, changes nothing, and runs no
kernel-config action (the run records no effect at all). -/
theorem updateConnection_sequence_noop (env : Env) (path : String)
    (kp : Option KernelPreference) (c0 : Option NotebookConnection)
    (conns : List NotebookConnection)
    (h : (initializeCS c0 env (newClientSession path kp)).state.kernel = none) :
    (updateConnectionSeq conns env (initializeCS c0 env (newClientSession path kp)).state).result
      = Except.ok () ∧
    (updateConnectionSeq conns env (initializeCS c0 env (newClientSession path kp)).state).state
      = (initializeCS c0 env (newClientSession path kp)).state ∧
    (updateConnectionSeq conns env (initializeCS c0 env (newClientSession path kp)).state).trace
      = [] := by
  rw [updateConnectionSeq_no_kernel conns env _ h]
  exact ⟨rfl, rfl, rfl⟩

/-- Witness for C7 on the dead-server environment, where initialize leaves
no kernel. -/
theorem updateConnection_sequence_noop_witness :
    (updateConnectionSeq [connA, connSentinel] envServerDead
      (initializeCS none envServerDead (newClientSession "nb" none)).state).trace = [] :=
  (updateConnection_sequence_noop envServerDead "nb" none none [connA, connSentinel]
    rfl).2.2

/-- C8: updateConnection ignores a connection whose profile id is the
sentinel -1 and keeps the held one; with an active kernel and any other id,
the held connection is replaced by the argument. -/
theorem updateConnection_sentinel_policy (env : Env) (s : ClientSessionState)
    (conn : NotebookConnection) :
    (conn.profileId = "-1" →
      (updateConnection conn env s).state.connection = s.connection) ∧
    (∀ k, conn.profileId ≠ "-1" → s.kernel = some k →
      (updateConnection conn env s).state.connection = some conn) := by
  constructor
  · intro hid
    cases hk : s.kernel with
    | none => rw [updateConnection_no_kernel conn env s hk]
    | some k =>
        rw [updateConnection_with_kernel conn env s k hk]
        simp [hid]
  · intro k hid hk
    rw [updateConnection_with_kernel conn env s k hk]
    have hb : (conn.profileId != "-1") = true := bne_iff_ne.mpr hid
    simp [hb]

/-- Witness for C8: the sentinel call keeps the held connection on a
concrete state with an active kernel. -/
theorem updateConnection_sentinel_policy_witness :
    (updateConnection connSentinel envSpark stSpark).state.connection = stSpark.connection :=
  (updateConnection_sentinel_policy envSpark stSpark connSentinel).1 rfl

/-- C10: with no active kernel the early return of updateConnection skips
the connection replacement too, whatever the profile id of the argument. -/
theorem updateConnection_no_kernel_keeps_connection (env : Env) (s : ClientSessionState)
    (conn : NotebookConnection) (h : s.kernel = none) :
    (updateConnection conn env s).state.connection = s.connection ∧
    (updateConnection conn env s).state = s := by
  rw [updateConnection_no_kernel conn env s h]
  exact ⟨rfl, rfl⟩

/-- Witness for C10 at a concrete call with a non-sentinel profile id. -/
theorem updateConnection_no_kernel_keeps_connection_witness :
    (updateConnection connA envSpark (newClientSession "nb" none)).state =
      newClientSession "nb" none :=
  (updateConnection_no_kernel_keeps_connection envSpark (newClientSession "nb" none)
    connA rfl).2

/-- awaitKernelReady when the ready promise rejects: the catch block runs,
setting isReady from the kernel, resolving the current gate once more, and
rethrowing. -/
theorem awaitKernelReady_error (kernel : Kernel) (e : JsError) (env : Env)
    (s : ClientSessionState) (h : kernel.readyOutcome = Except.error e) :
    awaitKernelReady kernel env s =
      ⟨Except.error e,
        { s with isReady := kernel.isReady,
                 kernelChangeResolved := s.kernelChangeResolved + 1 }, []⟩ := by
  unfold awaitKernelReady
  rw [h]
  rfl

/-- awaitKernelReady when the ready promise resolves: a no-op. -/
theorem awaitKernelReady_ok (kernel : Kernel) (env : Env) (s : ClientSessionState)
    (h : kernel.readyOutcome = Except.ok ()) :
    awaitKernelReady kernel env s = ⟨Except.ok (), s, []⟩ := by
  unfold awaitKernelReady
  rw [h]
  rfl

/-- finishChangeKernel when the ready promise rejects: the catch block runs
and the error is rethrown. -/
theorem finishChangeKernel_ready_error (kernel : Kernel) (e : JsError) (env : Env)
    (s : ClientSessionState) (hready : kernel.readyOutcome = Except.error e) :
    finishChangeKernel kernel env s =
      ⟨Except.error e,
        { s with isReady := kernel.isReady,
                 kernelChangeResolved := s.kernelChangeResolved + 1 }, []⟩ := by
  unfold finishChangeKernel
  simp only [CSM.monad_bind]
  rw [CSM.bind_of_err _ (awaitKernelReady_error kernel e env s hready)]

/-- C2: when the internal switch yields a kernel whose ready promise
rejects, changeKernel resolves the freshly allocated kernelChangeCompleted
gate (exactly once, on the new generation) and then re-raises the error to
the caller; errorMessage is untouched, so the failure propagates instead of
being swallowed. -/
theorem changeKernel_resolves_gate_on_ready_failure (env : Env) (s : ClientSessionState)
    (opts : KernelSpec) (kernel : Kernel) (e : JsError)
    (hdo : (doChangeKernel opts.name env (gateAllocState s)).result = Except.ok (some kernel))
    (hready : kernel.readyOutcome = Except.error e) :
    (changeKernel opts env s).result = Except.error e ∧
    (changeKernel opts env s).state.kernelChangeGen = s.kernelChangeGen + 1 ∧
    (changeKernel opts env s).state.kernelChangeResolved = 1 ∧
    (changeKernel opts env s).state.isReady = kernel.isReady ∧
    (changeKernel opts env s).state.errorMessage = s.errorMessage := by
  rcases hdo2 : doChangeKernel opts.name env (gateAllocState s) with ⟨r, s2, t2⟩
  have hr : r = Except.ok (some kernel) := by
    rw [hdo2] at hdo
    exact hdo
  subst hr
  have hg : gates s2 = gates (gateAllocState s) := by
    have h2 := gatePres_doChangeKernel opts.name env (gateAllocState s)
    rw [hdo2] at h2
    exact h2
  have hgen : s2.kernelChangeGen = s.kernelChangeGen + 1 := congrArg GateView.kernelChangeGen hg
  have hkcr : s2.kernelChangeResolved = 0 := congrArg GateView.kernelChangeResolved hg
  have herr : s2.errorMessage = s.errorMessage := congrArg GateView.errorMessage hg
  have hck : changeKernel opts env s =
      ⟨(finishChangeKernel kernel env s2).result, (finishChangeKernel kernel env s2).state,
        t2 ++ (finishChangeKernel kernel env s2).trace⟩ := by
    unfold changeKernel
    simp only [CSM.monad_bind, CSM.modifyS_bind]
    rw [CSM.bind_of_ok _ hdo2]
  rw [hck, finishChangeKernel_ready_error kernel e env s2 hready]
  refine ⟨rfl, ?_, ?_, rfl, ?_⟩
  · simp [hgen]
  · simp [hkcr]
  · simp [herr]

/-- Witness for C2 on the concrete failing-kernel session. -/
theorem changeKernel_resolves_gate_on_ready_failure_witness :
    (changeKernel { name := "k2" } envFailingKernel stFailing).result = Except.error errBoom ∧
    (changeKernel { name := "k2" } envFailingKernel stFailing).state.kernelChangeResolved = 1 :=
  ⟨(changeKernel_resolves_gate_on_ready_failure envFailingKernel stFailing { name := "k2" }
      kernelFailing errBoom rfl rfl).1,
   (changeKernel_resolves_gate_on_ready_failure envFailingKernel stFailing { name := "k2" }
      kernelFailing errBoom rfl rfl).2.2.1⟩

/-- startNewNamed when startNew rejects: the error propagates after the call
has been recorded. -/
theorem startNewNamed_error (kn : String) (env : Env) (s : ClientSessionState) (e : JsError)
    (h : env.sessionManager.startNew (some kn) = Except.error e) :
    startNewNamed kn env s = ⟨Except.error e, s, [Effect.startNewCall (some kn)]⟩ := by
  unfold startNewNamed
  simp only [CSM.monad_bind, CSM.readEnv_bind, CSM.emit_bind]
  rw [h]
  rfl

/-- startNewFallback on a 501 error: warn, then start the default session
and mark defaultKernelLoaded false. -/
theorem startNewFallback_501 (kn : String) (env : Env) (s : ClientSessionState) (err : JsError)
    (h501 : err.responseStatus = some 501) (sess : Session)
    (h2 : env.sessionManager.startNew none = Except.ok sess) :
    startNewFallback kn err env s =
      ⟨Except.ok { sess with defaultKernelLoaded := false }, s,
        [Effect.warn ("Kernel " ++ kn ++ " was not found. The default kernel will be used instead."),
         Effect.startNewCall none]⟩ := by
  unfold startNewFallback
  rw [h501]
  simp only [beq_self_eq_true, if_true, CSM.monad_bind, CSM.readEnv_bind, CSM.emit_bind]
  rw [h2]
  rfl

/-- startNewFallback on any other error: the error is rethrown. -/
theorem startNewFallback_other (kn : String) (env : Env) (s : ClientSessionState) (err : JsError)
    (h501 : err.responseStatus ≠ some 501) :
    startNewFallback kn err env s = ⟨Except.error err, s, []⟩ := by
  unfold startNewFallback
  have hb : (err.responseStatus == some 501) = false := beq_eq_false_iff_ne.mpr h501
  simp only [hb, Bool.false_eq_true, if_false]
  rfl

/-- startSessionInstance under the kernel-not-found scenario: the fallback
session is stored with defaultKernelLoaded false, after the failed named
call, the warning, and the fallback call. -/
theorem startSessionInstance_501 (kn : String) (env : Env) (s : ClientSessionState)
    (e : JsError) (sess : Session)
    (h1 : env.sessionManager.startNew (some kn) = Except.error e)
    (h501 : e.responseStatus = some 501)
    (h2 : env.sessionManager.startNew none = Except.ok sess) :
    (startSessionInstance kn env s).state.session =
      some { sess with defaultKernelLoaded := false } ∧
    ∃ t, (startSessionInstance kn env s).trace =
      Effect.startNewCall (some kn) ::
      Effect.warn ("Kernel " ++ kn ++ " was not found. The default kernel will be used instead.") ::
      Effect.startNewCall none :: t := by
  have htc : CSM.tryCatch (startNewNamed kn) (startNewFallback kn) env s =
      ⟨Except.ok { sess with defaultKernelLoaded := false }, s,
        [Effect.startNewCall (some kn),
         Effect.warn ("Kernel " ++ kn ++ " was not found. The default kernel will be used instead."),
         Effect.startNewCall none]⟩ := by
    rw [CSM.tryCatch_of_error _ (startNewNamed_error kn env s e h1)]
    rw [startNewFallback_501 kn env s e h501 sess h2]
    rfl
  unfold startSessionInstance
  simp only [CSM.monad_bind]
  rw [CSM.bind_of_ok _ htc]
  constructor
  · simp only [CSM.modifyS_bind]
    have hst := (statePres_bind (statePres_runKernelConfigActions kn)
      (fun _ => statePres_emit Effect.fireStatusChanged)) env
      { s with session := some { sess with defaultKernelLoaded := false } }
    rw [hst]
  · exact ⟨_, rfl⟩

/-- startSessionInstance when startNew fails with any status other than 501:
the error is rethrown from the session-start routine. -/
theorem startSessionInstance_other_error (kn : String) (env : Env) (s : ClientSessionState)
    (e : JsError) (h1 : env.sessionManager.startNew (some kn) = Except.error e)
    (h501 : e.responseStatus ≠ some 501) :
    (startSessionInstance kn env s).result = Except.error e := by
  have htc : CSM.tryCatch (startNewNamed kn) (startNewFallback kn) env s =
      ⟨Except.error e, s, [Effect.startNewCall (some kn)]⟩ := by
    rw [CSM.tryCatch_of_error _ (startNewNamed_error kn env s e h1)]
    rw [startNewFallback_other kn env s e h501]
    rfl
  unfold startSessionInstance
  simp only [CSM.monad_bind]
  rw [CSM.bind_of_err _ htc]

/-- C3: when the backend rejects the initial named startNew with the
kernel-not-found status (501) and the fallback startNew succeeds, the client
session surfaces a warning, issues the fallback call with kernelName
undefined, stores the fallback session with defaultKernelLoaded false; any
other rejection status is rethrown from the session-start routine; and no
exception ever escapes initialize. -/
theorem startSession_kernel_not_found_fallback (kn : String) (env : Env)
    (s : ClientSessionState) (e : JsError) (sess : Session)
    (h1 : env.sessionManager.startNew (some kn) = Except.error e)
    (h501 : e.responseStatus = some 501)
    (h2 : env.sessionManager.startNew none = Except.ok sess) :
    (startSessionInstance kn env s).state.session =
      some { sess with defaultKernelLoaded := false } ∧
    (∃ t, (startSessionInstance kn env s).trace =
      Effect.startNewCall (some kn) ::
      Effect.warn ("Kernel " ++ kn ++ " was not found. The default kernel will be used instead.") ::
      Effect.startNewCall none :: t) ∧
    (∀ env2 s2 kn2 e2, env2.sessionManager.startNew (some kn2) = Except.error e2 →
      e2.responseStatus ≠ some 501 →
      (startSessionInstance kn2 env2 s2).result = Except.error e2) ∧
    (∀ env2 path kp conn,
      (initializeCS conn env2 (newClientSession path kp)).result = Except.ok ()) := by
  obtain ⟨hA, hB⟩ := startSessionInstance_501 kn env s e sess h1 h501 h2
  exact ⟨hA, hB,
    fun env2 s2 kn2 e2 ha hb => startSessionInstance_other_error kn2 env2 s2 e2 ha hb,
    fun env2 path kp conn => (initializeCS_outcome conn env2 (newClientSession path kp)).1⟩

/-- Witness for C3 on the concrete 501 environment. -/
theorem startSession_kernel_not_found_fallback_witness :
    (startSessionInstance "missingKernel" env501 (newClientSession "nb" none)).state.session =
      some { sessSpark with defaultKernelLoaded := false } :=
  (startSession_kernel_not_found_fallback "missingKernel" env501 (newClientSession "nb" none)
    err501 sessSpark rfl rfl rfl).1

/-- C4: with a backend session whose kernel is present, a held connection,
and a kernel name containing the spark marker (case-insensitively), the
default kernel-config action issues exactly one silent execute request whose
code is the SparkMagic endpoint-change command built from the connection,
and its result is exactly the outcome of awaiting the done future of that
request; when the session, the connection, or the spark marker is absent it
issues no request at all. -/
theorem sparkKernel_bootstrap_command (env : Env) (s : ClientSessionState) (kn : String)
    (sess : Session) (k : Kernel) (conn : NotebookConnection)
    (hs : s.session = some sess) (hk : sess.kernel = some k)
    (hc : s.connection = some conn) (hspark : isSparkKernel kn = true) :
    (runTasksBeforeSessionStart kn env s).trace =
      [Effect.executeRequest ("%_do_not_call_change_endpoint --username=" ++ conn.user ++
        " --password=" ++ conn.password ++ " --server=" ++
        env.livyServerUrl conn.host conn.knoxport ++ " --auth=Basic_Access") true] ∧
    (runTasksBeforeSessionStart kn env s).result =
      k.executeDone (doNotCallChangeEndpointParams env conn) true ∧
    (∀ env2 s2 kn2, s2.session = none ∨ s2.connection = none ∨ isSparkKernel kn2 = false →
      (runTasksBeforeSessionStart kn2 env2 s2).trace = []) := by
  refine ⟨?_, ?_, ?_⟩
  · unfold runTasksBeforeSessionStart
    simp only [CSM.monad_bind, CSM.getS_bind]
    rw [hs, hc]
    simp only [hspark, if_true, CSM.readEnv_bind]
    rw [hk]
    simp [CSM.emit_bind, doNotCallChangeEndpointParams]
  · unfold runTasksBeforeSessionStart
    simp only [CSM.monad_bind, CSM.getS_bind]
    rw [hs, hc]
    simp only [hspark, if_true, CSM.readEnv_bind]
    rw [hk]
    simp [CSM.emit_bind]
  · intro env2 s2 kn2 h
    rcases h with h | h | h
    · cases hcc : s2.connection with
      | none =>
          unfold runTasksBeforeSessionStart
          simp [h, hcc]
      | some c2 =>
          unfold runTasksBeforeSessionStart
          simp [h, hcc]
    · cases hss : s2.session with
      | none =>
          unfold runTasksBeforeSessionStart
          simp [h, hss]
      | some sess2 =>
          unfold runTasksBeforeSessionStart
          simp [h, hss]
    · cases hss : s2.session with
      | none =>
          cases hcc : s2.connection with
          | none =>
              unfold runTasksBeforeSessionStart
              simp [h, hss, hcc]
          | some c2 =>
              unfold runTasksBeforeSessionStart
              simp [h, hss, hcc]
      | some sess2 =>
          cases hcc : s2.connection with
          | none =>
              unfold runTasksBeforeSessionStart
              simp [h, hss, hcc]
          | some c2 =>
              unfold runTasksBeforeSessionStart
              simp [h, hss, hcc]

/-- Witness for C4 on the concrete spark session and connection. -/
theorem sparkKernel_bootstrap_command_witness :
    (runTasksBeforeSessionStart "Spark3kernel" envSpark stSpark).trace =
      [Effect.executeRequest (doNotCallChangeEndpointParams envSpark connA) true] :=
  (sparkKernel_bootstrap_command envSpark stSpark "Spark3kernel" sessSpark kernelSpark connA
    rfl rfl rfl rfl).1

/-- Running the recording actions with the given tags, all succeeding,
produces exactly the strictly sequential start/end trace in registration
order and leaves the state untouched. -/
theorem runConfigActionsList_customsOk (tags : List Nat) (kn : String) (env : Env)
    (s : ClientSessionState) :
    runConfigActionsList (customsOk tags) kn env s = ⟨Except.ok (), s, seqTrace tags kn⟩ := by
  induction tags with
  | nil => rfl
  | cons t rest ih =>
      have hact : runConfigAction (ConfigAction.custom t (Except.ok ())) kn env s =
          ⟨Except.ok (), s, [Effect.actionStart t kn, Effect.actionEnd t kn]⟩ := rfl
      show runConfigActionsList
        (ConfigAction.custom t (Except.ok ()) :: customsOk rest) kn env s = _
      unfold runConfigActionsList
      simp only [CSM.monad_bind]
      rw [CSM.bind_of_ok _ hact]
      rw [ih]
      simp [seqTrace]

/-- runKernelConfigActions over the recording actions. -/
theorem runKernelConfigActions_customsOk (tags : List Nat) (kn : String) (env : Env)
    (s : ClientSessionState) (hacts : s.kernelConfigActions = customsOk tags) :
    runKernelConfigActions kn env s = ⟨Except.ok (), s, seqTrace tags kn⟩ := by
  unfold runKernelConfigActions
  simp only [CSM.monad_bind, CSM.getS_bind]
  rw [hacts]
  exact runConfigActionsList_customsOk tags kn env s

/-- doChangeKernel with an existing session whose changeKernel succeeds,
over the recording actions: the switch event strictly precedes the action
trace, which is the sequential start/end interleaving in registration order
for the new kernel name. -/
theorem doChangeKernel_customsOk_ok (tags : List Nat) (name : String) (env : Env)
    (s : ClientSessionState) (sess : Session) (kernel : Kernel)
    (hacts : s.kernelConfigActions = customsOk tags)
    (hsess : s.session = some sess)
    (hco : sess.changeKernelOutcome name = Except.ok kernel) :
    doChangeKernel name env s =
      ⟨Except.ok (some kernel),
        { s with session := some { sess with kernel := some kernel } },
        Effect.sessionChangeKernel name :: seqTrace tags kernel.name⟩ := by
  unfold doChangeKernel
  simp only [CSM.monad_bind, CSM.getS_bind]
  rw [hsess]
  simp only [CSM.emit_bind]
  rw [hco]
  simp only [CSM.await_ok_bind, CSM.modifyS_bind]
  rw [CSM.bind_of_ok _ (runKernelConfigActions_customsOk tags kernel.name env
    { s with session := some { sess with kernel := some kernel } } hacts)]
  simp

/-- doChangeKernel with an existing session whose changeKernel rejects: the
error propagates and no action event appears after the switch event. -/
theorem doChangeKernel_changeKernel_error (name : String) (env : Env)
    (s : ClientSessionState) (sess : Session) (e : JsError)
    (hsess : s.session = some sess)
    (hco : sess.changeKernelOutcome name = Except.error e) :
    doChangeKernel name env s = ⟨Except.error e, s, [Effect.sessionChangeKernel name]⟩ := by
  unfold doChangeKernel
  simp only [CSM.monad_bind, CSM.getS_bind]
  rw [hsess]
  simp only [CSM.emit_bind]
  rw [hco]
  rfl

/-- C9: kernel-config actions run strictly sequentially in registration
order (the end event of each action precedes the start event of the next), the
run leaves the state unchanged and succeeds, and under a kernel switch the
whole list runs only after the changeKernel call on the session has itself completed:
the switch event heads the trace, and if the switch fails no action event is
recorded at all. -/
theorem kernelConfigActions_sequential (env : Env) (s : ClientSessionState) (kn : String)
    (tags : List Nat) (hacts : s.kernelConfigActions = customsOk tags) :
    (runKernelConfigActions kn env s).result = Except.ok () ∧
    (runKernelConfigActions kn env s).state = s ∧
    (runKernelConfigActions kn env s).trace = seqTrace tags kn ∧
    (∀ sess name kernel, s.session = some sess →
      sess.changeKernelOutcome name = Except.ok kernel →
      (doChangeKernel name env s).trace =
        Effect.sessionChangeKernel name :: seqTrace tags kernel.name) ∧
    (∀ sess name e, s.session = some sess →
      sess.changeKernelOutcome name = Except.error e →
      (doChangeKernel name env s).trace = [Effect.sessionChangeKernel name] ∧
      (doChangeKernel name env s).result = Except.error e) := by
  have hrka := runKernelConfigActions_customsOk tags kn env s hacts
  refine ⟨?_, ?_, ?_, ?_, ?_⟩
  · rw [hrka]
  · rw [hrka]
  · rw [hrka]
  · intro sess name kernel hsess hco
    rw [doChangeKernel_customsOk_ok tags name env s sess kernel hacts hsess hco]
  · intro sess name e hsess hco
    rw [doChangeKernel_changeKernel_error name env s sess e hsess hco]
    exact ⟨rfl, rfl⟩

/-- Witness for C9 on the concrete state with two recording actions. -/
theorem kernelConfigActions_sequential_witness :
    (runKernelConfigActions "k" envSpark stCustomActs).trace = seqTrace [0, 1] "k" :=
  (kernelConfigActions_sequential envSpark stCustomActs "k" [0, 1] rfl).2.2.1
